import Mathlib

/-!
Verification development for the carch-go template service.

The definitions below are a shallow embedding of the Go sources:

* `internal/domain/user.go`            — the `User` entity and domain errors;
* `internal/repository/repository.go`  — `UserRepository` (`Create`, `GetByID`,
  `Update`, `Delete`, `List`) over an in-memory model of the `users` table;
* `internal/service` (user service)    — a pure pass-through layer;
* `internal/transport/http/models.go`  — the five REST handlers and
  `isValidEmail`;
* `internal/worker/worker.go`          — the worker consume loop;
* `cmd/app` main                       — the graceful-shutdown orchestration
  (error/done channels, the two-iteration wait loop, process exit).

Time model: `time.Now()` is modelled as reading a strictly increasing logical
clock stored next to the table; every call to `now` advances the clock by one
tick (the Go runtime reads a monotonic nanosecond clock, and the source never
reuses a single reading for two fields, so two separate calls are two distinct
reads). Strings are modelled as Lean `String` over their character lists
(ASCII payloads, so Go byte indices coincide with character indices).
-/

namespace Carch

/-! ### String helpers: Go strings.Index / strings.LastIndex -/

/-- Index of the first occurrence of character c, or -1 (Go strings.Index). -/
def idxOf (s : List Char) (c : Char) : Int :=
  match s.findIdx? (fun a => a = c) with
  | some i => (i : Int)
  | none => -1

/-- Index of the last occurrence of character c, or -1 (Go strings.LastIndex). -/
def lastIdxOf (s : List Char) (c : Char) : Int :=
  s.enum.foldl (fun acc p => if p.2 = c then (p.1 : Int) else acc) (-1)

/-! ### Domain model (internal/domain/user.go)

`CreatedAt`/`UpdatedAt` are logical-clock ticks (`Nat`); the Go zero value of
`time.Time` is tick `0`. The Go zero value of a `string` field is `""`. -/

structure User where
  id : String
  email : String
  password : String
  name : String
  createdAt : Nat
  updatedAt : Nat
deriving Repr, DecidableEq

/-- The in-memory model of the `users` table plus the logical clock. -/
structure Store where
  rows : List User
  clock : Nat
deriving Repr, DecidableEq

/-- One call of `time.Now()`: returns the current tick and advances the clock. -/
def now (s : Store) : Nat × Store :=
  (s.clock, { s with clock := s.clock + 1 })

/-- Errors that can come out of the repository layer.
`noRows` is `sql.ErrNoRows` (what `sqlx.GetContext` returns when the query
matches no row); `userNotFound` is `domain.ErrUserNotFound`;
`invalidInput` is `domain.ErrInvalidInput`; `dbErr` is any other driver error.
These are distinct error values: the Go handlers compare errors with `==`
(pointer identity on the `errors.New` sentinels). -/
inductive RepoErr
  | noRows
  | userNotFound
  | invalidInput
  | dbErr (msg : String)
deriving Repr, DecidableEq

/-- The `Error()` text of each modelled error value. -/
def errMsg : RepoErr → String
  | .noRows => "sql: no rows in result set"
  | .userNotFound => "user not found"
  | .invalidInput => "invalid input"
  | .dbErr m => m

namespace UserRepository

/-- `UserRepository.Create` (repository.go): generates an id when absent,
sets `CreatedAt` and `UpdatedAt` by two separate `time.Now()` calls, then
INSERTs the row. A duplicate primary key makes the INSERT fail with a driver
error (the `users.id` column is the primary key); the clock reads have already
happened by then. `genId` stands for `uuid.New().String()`. -/
def Create (genId : String) (u : User) (s : Store) : Except RepoErr User × Store :=
  let u := if u.id = "" then { u with id := genId } else u
  let (t1, s) := now s
  let (t2, s) := now s
  let u := { u with createdAt := t1, updatedAt := t2 }
  if s.rows.any (fun r => r.id == u.id) then
    (.error (.dbErr "duplicate key"), s)
  else
    (.ok u, { s with rows := s.rows ++ [u] })

/-- `UserRepository.GetByID`: SELECTs id, email, name, created_at, updated_at
WHERE id matches. No matching row makes `GetContext` return `sql.ErrNoRows`
(modelled as `RepoErr.noRows` — NOT `userNotFound`). The scanned struct leaves
the unselected password field at its zero value. -/
def GetByID (s : Store) (id : String) : Except RepoErr User :=
  match s.rows.find? (fun r => r.id == id) with
  | some r => .ok { r with password := "" }
  | none => .error .noRows

/-- `UserRepository.Update`: sets `user.UpdatedAt = time.Now()` first, then
UPDATEs email, name, updated_at WHERE id matches; if zero rows were affected
it returns `domain.ErrUserNotFound`. The returned `User` is the caller-side
struct after the mutation (its other fields are whatever the caller passed). -/
def Update (u : User) (s : Store) : Except RepoErr User × Store :=
  let (t, s) := now s
  let u := { u with updatedAt := t }
  let affected := s.rows.countP (fun r => r.id == u.id)
  let rows := s.rows.map (fun r =>
    if r.id == u.id then { r with email := u.email, name := u.name, updatedAt := t } else r)
  if affected = 0 then
    (.error .userNotFound, { s with rows := rows })
  else
    (.ok u, { s with rows := rows })

/-- `UserRepository.Delete`: DELETEs WHERE id matches; zero affected rows
yields `domain.ErrUserNotFound`. -/
def Delete (s : Store) (id : String) : Except RepoErr Unit × Store :=
  let affected := s.rows.countP (fun r => r.id == id)
  let rows := s.rows.filter (fun r => !(r.id == id))
  if affected = 0 then
    (.error .userNotFound, { s with rows := rows })
  else
    (.ok (), { s with rows := rows })

/-- Insertion keeping `created_at DESC` order (ORDER BY of the List query). -/
def insertByCreatedDesc (u : User) : List User → List User
  | [] => [u]
  | v :: r => if u.createdAt ≤ v.createdAt then v :: insertByCreatedDesc u r else u :: v :: r

/-- `UserRepository.List`: SELECTs all rows ORDER BY created_at DESC; the
password column is not selected, so it comes back as the zero value. -/
def ListUsers (s : Store) : Except RepoErr (List User) :=
  .ok ((s.rows.foldl (fun acc r => insertByCreatedDesc r acc) []).map
    (fun r => { r with password := "" }))

end UserRepository

/-! ### User service (internal/service)

`UserService` only logs an Info line and forwards to the repository
(`return s.repo.X(ctx, ...)` for every method); the Info logging is elided,
the returned values are exactly the repository results. -/

namespace UserService

def Create (genId : String) (u : User) (s : Store) : Except RepoErr User × Store :=
  UserRepository.Create genId u s

def GetByID (s : Store) (id : String) : Except RepoErr User :=
  UserRepository.GetByID s id

def Update (u : User) (s : Store) : Except RepoErr User × Store :=
  UserRepository.Update u s

def Delete (s : Store) (id : String) : Except RepoErr Unit × Store :=
  UserRepository.Delete s id

def ListUsers (s : Store) : Except RepoErr (List User) :=
  UserRepository.ListUsers s

end UserService

/-! ### HTTP transport (internal/transport/http/models.go) -/

/-- Decoded body of POST /api/v1/users (createUserRQ). -/
structure createUserRQ where
  email : String
  password : String
  name : String
deriving Repr, DecidableEq

/-- Decoded body of PUT /api/v1/users/id (updateUserRQ). -/
structure updateUserRQ where
  email : String
  name : String
deriving Repr, DecidableEq

/-- `isValidEmail` (models.go): first index of the at sign must be at least 1,
and the LAST index of a period in the whole string must be after the at sign
and not the final character. -/
def isValidEmail (email : String) : Bool :=
  let cs := email.data
  let atIndex := idxOf cs '@'
  if atIndex < 1 then false
  else
    let dotIndex := lastIdxOf cs '.'
    decide (dotIndex > atIndex) && decide (dotIndex < (cs.length : Int) - 1)

/-- Modelled from the spec: the email check as the specification words it —
the email contains an at sign at position at least 1 and has a period
SOMEWHERE after the at sign that is not the last character. Written only to
be compared with `isValidEmail`, which is translated from the source. -/
def specEmailCheck (email : String) : Bool :=
  let cs := email.data
  let atIndex := idxOf cs '@'
  decide (atIndex ≥ 1) &&
    cs.enum.any (fun p =>
      p.2 == '.' && decide ((p.1 : Int) > atIndex) &&
        decide ((p.1 : Int) < (cs.length : Int) - 1))

/-- A response body: a JSON-encoded user, list of users, error object
(errorRS), or an empty body. -/
inductive RespBody
  | jsonUser (u : User)
  | jsonUsers (l : List User)
  | jsonErr (e : String)
  | empty
deriving Repr, DecidableEq

structure Resp where
  status : Nat
  body : RespBody
deriving Repr, DecidableEq

/-- Handler-level log events (`h.log.Warn` / `h.log.Error`; `error` carries
the logged error text — the full error is logged server-side). -/
inductive LogEv
  | warn (m : String)
  | error (m : String) (errText : String)
deriving Repr, DecidableEq

structure HResult where
  resp : Resp
  log : List LogEv
deriving Repr, DecidableEq

/-- JSON serialization of a `User` per the struct tags of domain.User:
the password field is tagged with a dash and is never serialized. -/
def userJSONFields (u : User) : List (String × String) :=
  [("id", u.id), ("email", u.email), ("name", u.name),
   ("created_at", toString u.createdAt), ("updated_at", toString u.updatedAt)]

namespace Handler

/-- The branch of `createUser` after the service call, keyed on its result:
any error is answered 500 with `respondError` (which serializes
`errorRS{Error: err.Error()}`, i.e. the error text itself), after logging the
full error; success is answered 201 with the created user. -/
def createUserResult : Except RepoErr User → HResult
  | .error e =>
    { resp := ⟨500, .jsonErr (errMsg e)⟩,
      log := [.error "Failed to create user" (errMsg e)] }
  | .ok u => { resp := ⟨201, .jsonUser u⟩, log := [] }

/-- `Handler.createUser` on an already-decoded body (a body that fails to
decode is answered 400 before this point): empty email or password → 400
invalid input; email failing `isValidEmail` → 400 invalid input; otherwise
the service is called with a `domain.User` built from the request (all other
fields at their zero values). -/
def createUser (genId : String) (s : Store) (req : createUserRQ) : HResult × Store :=
  if req.email = "" ∨ req.password = "" then
    ({ resp := ⟨400, .jsonErr (errMsg .invalidInput)⟩,
       log := [.warn "Missing required fields"] }, s)
  else if !(isValidEmail req.email) then
    ({ resp := ⟨400, .jsonErr (errMsg .invalidInput)⟩,
       log := [.warn "Invalid email format"] }, s)
  else
    let u : User :=
      { id := "", email := req.email, password := req.password, name := req.name,
        createdAt := 0, updatedAt := 0 }
    let (res, s') := UserService.Create genId u s
    (createUserResult res, s')

/-- The branch of `getUserByID` after the service call: the error is compared
with `domain.ErrUserNotFound` by identity — equal → 404, anything else → 500
with the error text in the body (`respondError`). -/
def getUserByIDResult : Except RepoErr User → HResult
  | .error e =>
    if e = .userNotFound then
      { resp := ⟨404, .jsonErr (errMsg e)⟩, log := [.warn "User not found"] }
    else
      { resp := ⟨500, .jsonErr (errMsg e)⟩,
        log := [.error "Failed to get user" (errMsg e)] }
  | .ok u => { resp := ⟨200, .jsonUser u⟩, log := [] }

/-- `Handler.getUserByID`: empty path id → 400, else forward to the service. -/
def getUserByID (s : Store) (id : String) : HResult :=
  if id = "" then
    { resp := ⟨400, .jsonErr (errMsg .invalidInput)⟩, log := [.warn "Missing user ID"] }
  else
    getUserByIDResult (UserService.GetByID s id)

/-- The branch of `updateUser` after the service call; on success it responds
200 with the SAME struct it passed to the service (id/email/name from the
request, every other field still at its zero value except `updatedAt`,
which `UserRepository.Update` mutated). -/
def updateUserResult : Except RepoErr User → HResult
  | .error e =>
    if e = .userNotFound then
      { resp := ⟨404, .jsonErr (errMsg e)⟩, log := [.warn "User not found for update"] }
    else
      { resp := ⟨500, .jsonErr (errMsg e)⟩,
        log := [.error "Failed to update user" (errMsg e)] }
  | .ok u => { resp := ⟨200, .jsonUser u⟩, log := [] }

/-- `Handler.updateUser`: empty id → 400; else builds a `domain.User` from
the path id and the decoded body (createdAt/updatedAt/password zero) and
calls the service. -/
def updateUser (s : Store) (id : String) (req : updateUserRQ) : HResult × Store :=
  if id = "" then
    ({ resp := ⟨400, .jsonErr (errMsg .invalidInput)⟩, log := [.warn "Missing user ID"] }, s)
  else
    let u : User :=
      { id := id, email := req.email, password := "", name := req.name,
        createdAt := 0, updatedAt := 0 }
    let (res, s') := UserService.Update u s
    (updateUserResult res, s')

/-- The branch of `deleteUser` after the service call: 404 on
`domain.ErrUserNotFound`, 500 with the error text otherwise, 204 with an
empty body on success. -/
def deleteUserResult : Except RepoErr Unit → HResult
  | .error e =>
    if e = .userNotFound then
      { resp := ⟨404, .jsonErr (errMsg e)⟩, log := [.warn "User not found for deletion"] }
    else
      { resp := ⟨500, .jsonErr (errMsg e)⟩,
        log := [.error "Failed to delete user" (errMsg e)] }
  | .ok _ => { resp := ⟨204, .empty⟩, log := [] }

/-- `Handler.deleteUser`: empty id → 400; else call the service. -/
def deleteUser (s : Store) (id : String) : HResult × Store :=
  if id = "" then
    ({ resp := ⟨400, .jsonErr (errMsg .invalidInput)⟩, log := [.warn "Missing user ID"] }, s)
  else
    let (res, s') := UserService.Delete s id
    (deleteUserResult res, s')

/-- The branch of `listUsers` after the service call: any error → 500 with
the error text; success → 200 with the array. -/
def listUsersResult : Except RepoErr (List User) → HResult
  | .error e =>
    { resp := ⟨500, .jsonErr (errMsg e)⟩,
      log := [.error "Failed to list users" (errMsg e)] }
  | .ok l => { resp := ⟨200, .jsonUsers l⟩, log := [] }

/-- `Handler.listUsers`. -/
def listUsers (s : Store) : HResult :=
  listUsersResult (UserService.ListUsers s)

end Handler

/-! ### Graceful-shutdown orchestration (main of cmd/app)

After the termination trigger, main spawns one goroutine per server:

  the HTTP goroutine sends to `shutdownErrors` when `httpServer.Shutdown`
  returns an error, and then ALWAYS sends to `shutdownDone`; the gRPC
  goroutine does the same with `grpcServer.Shutdown`.

Both channels are buffered with capacity 2, so the sends never block; the
two sends of one goroutine are modelled as one atomic step (a schedule where
both happen before anything else reads the channels is a real Go schedule).
The wait loop then runs EXACTLY TWO select iterations, each receiving from
either channel, logging an error line for an error message and a completed
line for a done message; afterwards main logs and RETURNS, which ends the
process with exit status 0 (there is no os.Exit on this path; the logger
only exits the process via Fatal during startup).

A component whose `Shutdown` call has not yet returned is one whose name is
not in `finished`: it has neither completed nor hit the 30s deadline (the
deadline makes `Shutdown` return `ctx.Err()`, i.e. a `complete` step with an
error result). -/

/-- The two components started by main. -/
inductive Comp
  | http
  | grpc
deriving Repr, DecidableEq

/-- Log lines of the wait loop: `log.Error ("Shutdown error", err)` — the
error text names the failing component — and
`log.Info "Server shutdown completed successfully"`. -/
inductive OLog
  | shutdownErrorLogged (c : Comp)
  | shutdownCompletedLogged
deriving Repr, DecidableEq

/-- State of the shutdown sequence: both channel buffers, the set of
components whose `Shutdown` call has returned, the number of completed wait
iterations, and the log. -/
structure OSt where
  errQ : List Comp
  doneQ : List Comp
  finished : List Comp
  iters : Nat
  logs : List OLog
deriving Repr, DecidableEq

def oInit : OSt := ⟨[], [], [], 0, []⟩

/-- Schedulable atomic actions: a shutdown goroutine finishing (performing
its channel sends), or the wait loop receiving from one of the channels. -/
inductive OAct
  | complete (c : Comp)
  | recvErr
  | recvDone
deriving Repr, DecidableEq

/-- One step of the shutdown sequence; `res c = true` means the `Shutdown`
call of component `c` returns an error (a failure or the deadline expiring).
`none` means the action is not enabled at this state (not a Go schedule). -/
def ostep (res : Comp → Bool) (s : OSt) : OAct → Option OSt
  | .complete c =>
    if s.finished.contains c then none
    else
      some { s with
        errQ := if res c then s.errQ ++ [c] else s.errQ,
        doneQ := s.doneQ ++ [c],
        finished := s.finished ++ [c] }
  | .recvErr =>
    if s.iters < 2 then
      match s.errQ with
      | c :: rest =>
        some { s with errQ := rest, iters := s.iters + 1,
                      logs := s.logs ++ [.shutdownErrorLogged c] }
      | [] => none
    else none
  | .recvDone =>
    if s.iters < 2 then
      match s.doneQ with
      | _ :: rest =>
        some { s with doneQ := rest, iters := s.iters + 1,
                      logs := s.logs ++ [.shutdownCompletedLogged] }
      | [] => none
    else none

/-- Run a schedule (list of actions) from a state. -/
def orun (res : Comp → Bool) : List OAct → OSt → Option OSt
  | [], s => some s
  | a :: acts, s =>
    match ostep res s a with
    | some s' => orun res acts s'
    | none => none

/-- The observable end of main for a schedule that completes the wait loop
(`iters = 2`): main logs and returns normally, so the process exit status is
0 — the source contains no statement that could make it anything else on
this path. -/
def shutdownExitCode (res : Comp → Bool) (acts : List OAct) : Option (Nat × OSt) :=
  match orun res acts oInit with
  | some s => if s.iters = 2 then some (0, s) else none
  | none => none

/-! ### Worker (internal/worker/worker.go)

`Run` subscribes to queue "tasks"; a failed subscription returns that error.
Then it loops over a select between `ctx.Done()` (return nil) and a receive
from the delivery channel (process the message, i.e. log it and Ack it — an
Ack error is only logged — and continue). A message is a `Delivery` whose
observable content is its body string; the zero-value delivery of a closed
drained channel has body `""`. -/

/-- The delivery channel: an open channel blocks when drained; a channel
closed by the broker yields the zero-value delivery immediately once
drained (Go semantics of receiving on a closed channel). -/
inductive MQChan
  | opened (pending : List String)
  | closed (pending : List String)
deriving Repr, DecidableEq

/-- Receive on the channel: `none` means the receive would block. -/
def recvChan : MQChan → Option (String × MQChan)
  | .opened [] => none
  | .opened (d :: r) => some (d, .opened r)
  | .closed [] => some ("", .closed [])
  | .closed (d :: r) => some (d, .closed r)

/-- Environment oracle for one run of the worker loop: whether the
cancellation signal is ready at iteration i, which branch the select takes
when both are ready (true = the ctx branch), and whether the Ack of
iteration i fails. -/
structure WEnv where
  cancelled : Nat → Bool
  pick : Nat → Bool
  ackFail : Nat → Bool

/-- Worker-side observable state: the channel, the acknowledged bodies in
order, and the count of logged processing errors. -/
structure WSt where
  chan : MQChan
  acks : List String
  errLogs : Nat
deriving Repr, DecidableEq

/-- Outcome of running the loop for a bounded number of iterations:
either `Run` returned (with `none` modelling a nil error) or the loop is
still running. -/
inductive RunOut
  | ret (e : Option String)
  | running (st : WSt)
deriving Repr, DecidableEq

/-- `Worker.processMessage`: logs the body, then `msg.Ack(false)`; an Ack
error is returned to the loop, which only logs it and continues. -/
def processMessage (env : WEnv) (i : Nat) (st : WSt) (d : String) (ch : MQChan) : WSt :=
  if env.ackFail i then
    { chan := ch, acks := st.acks, errLogs := st.errLogs + 1 }
  else
    { chan := ch, acks := st.acks ++ [d], errLogs := st.errLogs }

/-- The select loop of `Worker.Run`, fuel-bounded. When only the ctx branch
is ready the loop returns nil; when only the receive is ready it processes;
when both are ready the oracle picks; when neither is ready the select
blocks (one waiting step). -/
def workerLoop (env : WEnv) : Nat → Nat → WSt → RunOut
  | 0, _, st => .running st
  | fuel + 1, i, st =>
    if env.cancelled i then
      match recvChan st.chan with
      | some (d, ch) =>
        if env.pick i then .ret none
        else workerLoop env fuel (i + 1) (processMessage env i st d ch)
      | none => .ret none
    else
      match recvChan st.chan with
      | some (d, ch) => workerLoop env fuel (i + 1) (processMessage env i st d ch)
      | none => workerLoop env fuel (i + 1) st

/-- `Worker.Run`: a failed subscription to "tasks" returns that error;
otherwise the loop runs on the subscribed channel. -/
def workerRun (consume : Except String MQChan) (env : WEnv) (fuel : Nat) : RunOut :=
  match consume with
  | .error e => .ret (some e)
  | .ok ch => workerLoop env fuel 0 ⟨ch, [], 0⟩

/-! ### Concrete scenario parameters used by the closed theorems below -/

/-- Shutdown results where the HTTP shutdown errors and the gRPC one would
succeed. -/
def resHttpFails : Comp → Bool
  | .http => true
  | .grpc => false

/-- Shutdown results where both shutdowns error. -/
def resBothFail : Comp → Bool := fun _ => true

/-- A worker environment where cancellation never fires and no Ack fails. -/
def wEnvNone : WEnv := ⟨fun _ => false, fun _ => false, fun _ => false⟩

end Carch

namespace Carch

/-! ## Theorems -/

/-- Claim C1 (code bug): the claim says the wait of the orchestrator never
completes until every started component has reported or the deadline has
expired, and that one component reporting an error never lets it stop
waiting for the other. The schedule below refutes this on the code: the
HTTP shutdown goroutine errors, sending on BOTH channels; the two wait-loop
iterations consume exactly those two messages and the loop completes
(`iters = 2`) while the gRPC `Shutdown` call has not reported
(`finished = [.http]` only) and no deadline has expired (a deadline expiry
would be a `complete .grpc` step returning the ctx error, which never
happened). -/
theorem orchestrator_wait_abandons_grpc :
    orun resHttpFails [.complete .http, .recvErr, .recvDone] oInit =
      some ⟨[], [], [.http], 2,
            [.shutdownErrorLogged .http, .shutdownCompletedLogged]⟩ := by
  decide

/-- Claim C8 (code bug): the claim says a shutdown error is logged per
failing component and the process exits non-zero. On the code, when BOTH
shutdowns fail, the schedule below is a complete run of the shutdown
sequence in which the two wait iterations consume the two done messages, so
NO error is logged (`logs` holds two completed lines), and main returns
normally: the exit status is 0. -/
theorem shutdown_failure_exit_zero :
    shutdownExitCode resBothFail
        [.complete .http, .complete .grpc, .recvDone, .recvDone] =
      some (0, ⟨[.http, .grpc], [], [.http, .grpc], 2,
                [.shutdownCompletedLogged, .shutdownCompletedLogged]⟩) := by
  decide

/-- Claim C2 (code bug): the claim says getById, update and delete all
return 404 for an absent id. On the code, update and delete do (the
repository translates zero affected rows to `domain.ErrUserNotFound`), but
`UserRepository.GetByID` surfaces the raw `sql.ErrNoRows`, which the handler
does not recognise as not-found, so getById answers 500 with that error
text in the body. -/
theorem missing_id_get_returns_500 :
    (Handler.getUserByID ⟨[], 0⟩ "missing-id").resp =
      ⟨500, .jsonErr "sql: no rows in result set"⟩ ∧
    ((Handler.updateUser ⟨[], 0⟩ "missing-id" ⟨"a@b.com", "A"⟩).1).resp.status = 404 ∧
    ((Handler.deleteUser ⟨[], 0⟩ "missing-id").1).resp.status = 404 := by
  decide

/-- Claim C3, counterexample: the claim says every email with a non-terminal
period after its at sign passes the check — in particular one that also ends
in a trailing period. The code takes the LAST period of the whole string:
for "a@b.c." the spec-worded check accepts (the period before c is after the
at sign and non-terminal) but `isValidEmail` rejects, and create answers 400
invalid input. -/
theorem email_last_dot_counterexample :
    isValidEmail "a@b.c." = false ∧ specEmailCheck "a@b.c." = true ∧
    ((Handler.createUser "gen-id" ⟨[], 0⟩ ⟨"a@b.c.", "p", "A"⟩).1).resp =
      ⟨400, .jsonErr "invalid input"⟩ := by
  decide

/-- Claim C4, counterexample: the claim says a 500-class response body
contains only a generic message and never the internal error text. On the
code, `respondError` serializes the error text itself: creating a user whose
generated id collides with an existing row surfaces the driver error, and
the 500 body carries exactly that internal text. -/
theorem internal_error_text_in_body :
    (Handler.createUser "u1"
        ⟨[⟨"u1", "e@x.com", "pw", "E", 0, 1⟩], 2⟩ ⟨"a@b.com", "p", "A"⟩).1 =
      { resp := ⟨500, .jsonErr "duplicate key"⟩,
        log := [.error "Failed to create user" "duplicate key"] } := by
  decide

/-- Claim C5, counterexample: the claim says the createdAt field of the 200
update response equals the original creation timestamp and is not a zero
value. On the code, create (at clock 1) answers a user with createdAt 1,
but the subsequent update answers the struct the handler built from only
id/email/name, whose createdAt is the zero value 0, not 1. (The updatedAt
of the response, 3, is strictly greater than the prior 2.) -/
theorem update_body_zero_createdAt :
    ((Handler.createUser "u1" ⟨[], 1⟩ ⟨"a@b.com", "p", "A"⟩).1).resp =
      ⟨201, .jsonUser ⟨"u1", "a@b.com", "p", "A", 1, 2⟩⟩ ∧
    ((Handler.updateUser (Handler.createUser "u1" ⟨[], 1⟩ ⟨"a@b.com", "p", "A"⟩).2
        "u1" ⟨"c@d.com", "C"⟩).1).resp =
      ⟨200, .jsonUser ⟨"u1", "c@d.com", "", "C", 0, 3⟩⟩ := by
  decide

/-- Claim C6, counterexample: the claim says the created user has createdAt
equal to updatedAt. The data layer sets them by two separate `time.Now()`
calls, i.e. two consecutive clock reads: on a store at clock 0 the 201 body
has createdAt 0 and updatedAt 1. -/
theorem create_timestamps_differ :
    ((Handler.createUser "u1" ⟨[], 0⟩ ⟨"a@b.com", "p", "A"⟩).1).resp =
      ⟨201, .jsonUser ⟨"u1", "a@b.com", "p", "A", 0, 1⟩⟩ := by
  decide

/-- Helper: on a fresh generated id and a request-built user (empty id),
`UserRepository.Create` succeeds and its effect is fully determined. -/
lemma create_ok_eq (genId : String) (u0 : User) (s : Store)
    (hid : u0.id = "")
    (hfresh : s.rows.any (fun r => r.id == genId) = false) :
    UserRepository.Create genId u0 s =
      (.ok { u0 with id := genId, createdAt := s.clock, updatedAt := s.clock + 1 },
       { rows := s.rows ++ [{ u0 with id := genId, createdAt := s.clock, updatedAt := s.clock + 1 }],
         clock := s.clock + 2 }) := by
  unfold UserRepository.Create now
  simp [hid, hfresh]

/-- Helper: the full effect of `Handler.createUser` on a valid payload with
a fresh generated id. -/
lemma createUser_valid_eq (genId : String) (s : Store) (req : createUserRQ)
    (he : req.email ≠ "") (hp : req.password ≠ "")
    (hv : isValidEmail req.email = true)
    (hfresh : s.rows.any (fun r => r.id == genId) = false) :
    Handler.createUser genId s req =
      ({ resp := ⟨201, .jsonUser ⟨genId, req.email, req.password, req.name, s.clock, s.clock + 1⟩⟩,
         log := [] },
       ⟨s.rows ++ [⟨genId, req.email, req.password, req.name, s.clock, s.clock + 1⟩],
        s.clock + 2⟩) := by
  have h1 : ¬(req.email = "" ∨ req.password = "") := by
    rintro (h | h)
    · exact he h
    · exact hp h
  unfold Handler.createUser UserService.Create
  rw [if_neg h1, if_neg (by simp [hv])]
  simp only [create_ok_eq genId ⟨"", req.email, req.password, req.name, 0, 0⟩ s rfl hfresh]
  simp [Handler.createUserResult]

/-- Claim C3 (amended): create returns 400 invalid input exactly when the
decoded payload has an empty email or password, or the email fails the
source check `isValidEmail` — first at sign at position at least 1 and the
LAST period of the whole email after the at sign and not the final
character. (Bodies that fail to decode are rejected 400 before this
validation and are outside this statement.) -/
theorem create_returns_400_iff (genId : String) (s : Store) (req : createUserRQ) :
    ((Handler.createUser genId s req).1).resp.status = 400 ↔
      (req.email = "" ∨ req.password = "" ∨ isValidEmail req.email = false) := by
  by_cases h1 : req.email = "" ∨ req.password = ""
  · rcases h1 with h | h <;> simp [Handler.createUser, h]
  · push_neg at h1
    obtain ⟨h1a, h1b⟩ := h1
    by_cases h2 : isValidEmail req.email
    · rcases hres : UserService.Create genId
          ⟨"", req.email, req.password, req.name, 0, 0⟩ s with ⟨res, s2⟩
      cases res with
      | error e =>
        simp [Handler.createUser, h1a, h1b, h2, hres, Handler.createUserResult]
      | ok u =>
        simp [Handler.createUser, h1a, h1b, h2, hres, Handler.createUserResult]
    · simp only [Bool.not_eq_true] at h2
      simp [Handler.createUser, h1a, h1b, h2]

/-- Claim C4 (amended): for every Data Store error other than not-found, on
each of the five endpoints, the handler logs the full error server-side and
answers 500 whose body error field carries the error text itself
(`respondError` serializes the text of the error, there is no generic
message substitution). -/
theorem internal_error_surfacing (e : RepoErr) (h : e ≠ .userNotFound) :
    Handler.getUserByIDResult (.error e) =
      { resp := ⟨500, .jsonErr (errMsg e)⟩,
        log := [.error "Failed to get user" (errMsg e)] } ∧
    Handler.updateUserResult (.error e) =
      { resp := ⟨500, .jsonErr (errMsg e)⟩,
        log := [.error "Failed to update user" (errMsg e)] } ∧
    Handler.deleteUserResult (.error e) =
      { resp := ⟨500, .jsonErr (errMsg e)⟩,
        log := [.error "Failed to delete user" (errMsg e)] } ∧
    Handler.listUsersResult (.error e) =
      { resp := ⟨500, .jsonErr (errMsg e)⟩,
        log := [.error "Failed to list users" (errMsg e)] } ∧
    Handler.createUserResult (.error e) =
      { resp := ⟨500, .jsonErr (errMsg e)⟩,
        log := [.error "Failed to create user" (errMsg e)] } := by
  refine ⟨?_, ?_, ?_, ?_, ?_⟩ <;>
    simp [Handler.getUserByIDResult, Handler.updateUserResult,
          Handler.deleteUserResult, Handler.listUsersResult,
          Handler.createUserResult, h]

/-- Witness for C4 at the concrete internal error with text "boom". -/
theorem internal_error_surfacing_witness :
    Handler.getUserByIDResult (.error (.dbErr "boom")) =
      { resp := ⟨500, .jsonErr "boom"⟩,
        log := [.error "Failed to get user" "boom"] } ∧
    Handler.updateUserResult (.error (.dbErr "boom")) =
      { resp := ⟨500, .jsonErr "boom"⟩,
        log := [.error "Failed to update user" "boom"] } ∧
    Handler.deleteUserResult (.error (.dbErr "boom")) =
      { resp := ⟨500, .jsonErr "boom"⟩,
        log := [.error "Failed to delete user" "boom"] } ∧
    Handler.listUsersResult (.error (.dbErr "boom")) =
      { resp := ⟨500, .jsonErr "boom"⟩,
        log := [.error "Failed to list users" "boom"] } ∧
    Handler.createUserResult (.error (.dbErr "boom")) =
      { resp := ⟨500, .jsonErr "boom"⟩,
        log := [.error "Failed to create user" "boom"] } :=
  internal_error_surfacing (.dbErr "boom") (by decide)

/-- Claim C6 (amended): for every valid create payload with a fresh
generated id, create answers 201 with a user whose createdAt and updatedAt
are two CONSECUTIVE clock reads taken at creation: createdAt is the clock
at the call and updatedAt the read immediately after it, so
createdAt < updatedAt rather than the two being the same instant. -/
theorem create_sets_consecutive_timestamps (genId : String) (s : Store) (req : createUserRQ)
    (he : req.email ≠ "") (hp : req.password ≠ "")
    (hv : isValidEmail req.email = true)
    (hfresh : s.rows.any (fun r => r.id == genId) = false) :
    ∃ u, ((Handler.createUser genId s req).1).resp = ⟨201, .jsonUser u⟩ ∧
      u.createdAt = s.clock ∧ u.updatedAt = s.clock + 1 ∧ u.createdAt < u.updatedAt := by
  refine ⟨⟨genId, req.email, req.password, req.name, s.clock, s.clock + 1⟩, ?_, rfl, rfl, ?_⟩
  · rw [createUser_valid_eq genId s req he hp hv hfresh]
  · exact Nat.lt_succ_self _

/-- Witness for C6 at a concrete valid payload on the empty store. -/
theorem create_sets_consecutive_timestamps_witness :
    ∃ u, ((Handler.createUser "u1" ⟨[], 0⟩ ⟨"a@b.com", "p", "A"⟩).1).resp = ⟨201, .jsonUser u⟩ ∧
      u.createdAt = (Store.mk [] 0).clock ∧ u.updatedAt = (Store.mk [] 0).clock + 1 ∧
      u.createdAt < u.updatedAt :=
  create_sets_consecutive_timestamps "u1" ⟨[], 0⟩ ⟨"a@b.com", "p", "A"⟩
    (by decide) (by decide) (by decide) (by decide)

/-- Claim C7 (confirmed): for every valid create payload with a fresh
generated id (so the service call succeeds), create answers 201 with a body
whose email and name equal the request fields and whose JSON serialization
has no password key (the password field carries the dash tag and is never
serialized out). -/
theorem create_valid_payload_response (genId : String) (s : Store) (req : createUserRQ)
    (he : req.email ≠ "") (hp : req.password ≠ "")
    (hv : isValidEmail req.email = true)
    (hfresh : s.rows.any (fun r => r.id == genId) = false) :
    ∃ u, ((Handler.createUser genId s req).1).resp = ⟨201, .jsonUser u⟩ ∧
      u.email = req.email ∧ u.name = req.name ∧
      "password" ∉ (userJSONFields u).map Prod.fst := by
  refine ⟨⟨genId, req.email, req.password, req.name, s.clock, s.clock + 1⟩, ?_, rfl, rfl, ?_⟩
  · rw [createUser_valid_eq genId s req he hp hv hfresh]
  · simp [userJSONFields]

/-- Witness for C7 at a concrete valid payload on the empty store. -/
theorem create_valid_payload_response_witness :
    ∃ u, ((Handler.createUser "u1" ⟨[], 0⟩ ⟨"a@b.com", "p", "A"⟩).1).resp = ⟨201, .jsonUser u⟩ ∧
      u.email = "a@b.com" ∧ u.name = "A" ∧
      "password" ∉ (userJSONFields u).map Prod.fst :=
  create_valid_payload_response "u1" ⟨[], 0⟩ ⟨"a@b.com", "p", "A"⟩
    (by decide) (by decide) (by decide) (by decide)

/-- Helper: the full effect of `UserRepository.Update` when some row matches
the id. -/
lemma update_found_eq (u : User) (s : Store)
    (h : s.rows.countP (fun r => r.id == u.id) ≠ 0) :
    UserRepository.Update u s =
      (.ok { u with updatedAt := s.clock },
       { rows := s.rows.map (fun r =>
           if r.id == u.id then
             { r with email := u.email, name := u.name, updatedAt := s.clock }
           else r),
         clock := s.clock + 1 }) := by
  unfold UserRepository.Update now
  simp [h]

/-- Claim C5 (amended): a successful update on an existing id answers 200
with a user whose updatedAt is strictly greater than the prior updatedAt of
the row, whose email and name are the request fields — and whose createdAt
is the ZERO value (the handler builds the response struct from only
id/email/name and the repository only sets updatedAt on it). In the store
itself the createdAt of the row is unchanged and its updatedAt became the
new clock read. -/
theorem update_success_fields (s : Store) (id : String) (req : updateUserRQ) (r : User)
    (hid : id ≠ "") (hin : r ∈ s.rows) (hr : r.id = id)
    (hclk : r.updatedAt < s.clock) :
    ∃ u, ((Handler.updateUser s id req).1).resp = ⟨200, .jsonUser u⟩ ∧
      u.id = id ∧ u.email = req.email ∧ u.name = req.name ∧
      r.updatedAt < u.updatedAt ∧ u.createdAt = 0 ∧
      ∃ r2 ∈ ((Handler.updateUser s id req).2).rows,
        r2.id = id ∧ r2.createdAt = r.createdAt ∧ r.updatedAt < r2.updatedAt := by
  have hcnt : s.rows.countP (fun x => x.id == id) ≠ 0 := by
    have hpos : 0 < s.rows.countP (fun x => x.id == id) :=
      List.countP_pos_iff.mpr ⟨r, hin, by simp [hr]⟩
    omega
  have heq : Handler.updateUser s id req =
      ({ resp := ⟨200, .jsonUser ⟨id, req.email, "", req.name, 0, s.clock⟩⟩, log := [] },
       { rows := s.rows.map (fun x =>
           if x.id == id then
             { x with email := req.email, name := req.name, updatedAt := s.clock }
           else x),
         clock := s.clock + 1 }) := by
    unfold Handler.updateUser UserService.Update
    rw [if_neg hid]
    simp only [update_found_eq ⟨id, req.email, "", req.name, 0, 0⟩ s hcnt]
    simp [Handler.updateUserResult]
  refine ⟨⟨id, req.email, "", req.name, 0, s.clock⟩, by rw [heq], rfl, rfl, rfl, hclk, rfl,
    ⟨{ r with email := req.email, name := req.name, updatedAt := s.clock }, ?_, hr, rfl, hclk⟩⟩
  rw [heq]
  have : ({ r with email := req.email, name := req.name, updatedAt := s.clock } : User) =
      (fun x => if x.id == id then
          { x with email := req.email, name := req.name, updatedAt := s.clock }
        else x) r := by
    simp [hr]
  rw [this]
  exact List.mem_map_of_mem _ hin

/-- Witness for C5: a store holding one row with id u1 at clock 2. -/
theorem update_success_fields_witness :
    ∃ u, ((Handler.updateUser ⟨[⟨"u1", "a@b.com", "pw", "A", 0, 1⟩], 2⟩ "u1"
        ⟨"c@d.com", "C"⟩).1).resp = ⟨200, .jsonUser u⟩ ∧
      u.id = "u1" ∧ u.email = "c@d.com" ∧ u.name = "C" ∧
      (User.mk "u1" "a@b.com" "pw" "A" 0 1).updatedAt < u.updatedAt ∧ u.createdAt = 0 ∧
      ∃ r2 ∈ ((Handler.updateUser ⟨[⟨"u1", "a@b.com", "pw", "A", 0, 1⟩], 2⟩ "u1"
          ⟨"c@d.com", "C"⟩).2).rows,
        r2.id = "u1" ∧ r2.createdAt = (User.mk "u1" "a@b.com" "pw" "A" 0 1).createdAt ∧
        (User.mk "u1" "a@b.com" "pw" "A" 0 1).updatedAt < r2.updatedAt :=
  update_success_fields ⟨[⟨"u1", "a@b.com", "pw", "A", 0, 1⟩], 2⟩ "u1" ⟨"c@d.com", "C"⟩
    ⟨"u1", "a@b.com", "pw", "A", 0, 1⟩
    (by decide) (by decide) (by decide) (by decide)

/-- Helper: deleting an id with a matching row succeeds and filters the rows. -/
lemma delete_found_eq (s : Store) (id : String)
    (h : s.rows.countP (fun r => r.id == id) ≠ 0) :
    UserRepository.Delete s id =
      (.ok (), { rows := s.rows.filter (fun r => !(r.id == id)), clock := s.clock }) := by
  unfold UserRepository.Delete
  simp [h]

/-- Helper: deleting an id with no matching row returns not-found and leaves
the rows as they are. -/
lemma delete_missing_eq (s : Store) (id : String)
    (h : s.rows.countP (fun r => r.id == id) = 0) :
    UserRepository.Delete s id = (.error .userNotFound, s) := by
  unfold UserRepository.Delete
  have hkeep : s.rows.filter (fun r => !(r.id == id)) = s.rows := by
    apply List.filter_eq_self.mpr
    intro a ha
    have := List.countP_eq_zero.mp h a ha
    simpa using this
  simp [h, hkeep]

/-- Claim C9 (confirmed): delete is never successful twice for one id — on a
store holding the id, the first delete answers 204, the second answers 404,
and the second call leaves the store exactly as the first left it. -/
theorem delete_twice_idempotent (s : Store) (id : String)
    (hid : id ≠ "") (h : s.rows.countP (fun r => r.id == id) ≠ 0) :
    ((Handler.deleteUser s id).1).resp.status = 204 ∧
    ((Handler.deleteUser (Handler.deleteUser s id).2 id).1).resp.status = 404 ∧
    (Handler.deleteUser (Handler.deleteUser s id).2 id).2 = (Handler.deleteUser s id).2 := by
  have h1 : Handler.deleteUser s id =
      ({ resp := ⟨204, .empty⟩, log := [] },
       { rows := s.rows.filter (fun r => !(r.id == id)), clock := s.clock }) := by
    unfold Handler.deleteUser UserService.Delete
    rw [if_neg hid]
    simp only [delete_found_eq s id h]
    simp [Handler.deleteUserResult]
  have hzero : (s.rows.filter (fun r => !(r.id == id))).countP (fun r => r.id == id) = 0 := by
    apply List.countP_eq_zero.mpr
    intro a ha
    have := (List.mem_filter.mp ha).2
    simpa using this
  have h2 : Handler.deleteUser (Handler.deleteUser s id).2 id =
      ({ resp := ⟨404, .jsonErr (errMsg .userNotFound)⟩,
         log := [.warn "User not found for deletion"] },
       (Handler.deleteUser s id).2) := by
    rw [h1]
    unfold Handler.deleteUser UserService.Delete
    rw [if_neg hid]
    simp only [delete_missing_eq ⟨s.rows.filter (fun r => !(r.id == id)), s.clock⟩ id hzero]
    simp [Handler.deleteUserResult]
  refine ⟨by rw [h1], by rw [h2], by rw [h2]⟩

/-- Witness for C9 on a one-row store. -/
theorem delete_twice_idempotent_witness :
    ((Handler.deleteUser ⟨[⟨"u1", "a@b.com", "pw", "A", 0, 1⟩], 2⟩ "u1").1).resp.status = 204 ∧
    ((Handler.deleteUser
        (Handler.deleteUser ⟨[⟨"u1", "a@b.com", "pw", "A", 0, 1⟩], 2⟩ "u1").2 "u1").1).resp.status
      = 404 ∧
    (Handler.deleteUser
        (Handler.deleteUser ⟨[⟨"u1", "a@b.com", "pw", "A", 0, 1⟩], 2⟩ "u1").2 "u1").2 =
      (Handler.deleteUser ⟨[⟨"u1", "a@b.com", "pw", "A", 0, 1⟩], 2⟩ "u1").2 :=
  delete_twice_idempotent ⟨[⟨"u1", "a@b.com", "pw", "A", 0, 1⟩], 2⟩ "u1"
    (by decide) (by decide)

/-- Helper: the worker loop never returns a non-nil error. -/
lemma workerLoop_ne_ret_some (env : WEnv) :
    ∀ fuel i st e, workerLoop env fuel i st ≠ .ret (some e) := by
  intro fuel
  induction fuel with
  | zero =>
    intro i st e h
    simp [workerLoop] at h
  | succ n ih =>
    intro i st e h
    unfold workerLoop at h
    split at h
    · split at h
      · split at h
        · simp at h
        · exact ih _ _ _ h
      · simp at h
    · split at h
      · exact ih _ _ _ h
      · exact ih _ _ _ h

/-- Helper: while the cancellation signal never fires, the worker loop keeps
running, whatever the channel does. -/
lemma workerLoop_running_of_not_cancelled (env : WEnv)
    (hc : ∀ j, env.cancelled j = false) :
    ∀ fuel i st, ∃ st2, workerLoop env fuel i st = .running st2 := by
  intro fuel
  induction fuel with
  | zero => intro i st; exact ⟨st, rfl⟩
  | succ n ih =>
    intro i st
    unfold workerLoop
    rw [hc i]
    simp only [Bool.false_eq_true, if_false]
    rcases hch : recvChan st.chan with _ | ⟨d, ch⟩
    · exact ih _ _
    · exact ih _ _

/-- Helper: on a closed drained channel, with no cancellation and no Ack
failures, every iteration receives the zero-value delivery, processes it and
acknowledges it; the loop runs on. -/
lemma workerLoop_closed_drained (env : WEnv)
    (hc : ∀ j, env.cancelled j = false) (ha : ∀ j, env.ackFail j = false) :
    ∀ fuel i acks el,
      workerLoop env fuel i ⟨.closed [], acks, el⟩ =
        .running ⟨.closed [], acks ++ List.replicate fuel "", el⟩ := by
  intro fuel
  induction fuel with
  | zero => intro i acks el; simp [workerLoop]
  | succ n ih =>
    intro i acks el
    unfold workerLoop
    rw [hc i]
    simp only [Bool.false_eq_true, if_false, recvChan, processMessage, ha i]
    rw [ih (i + 1) (acks ++ [""]) el]
    simp [List.replicate_succ]

/-- Claim C10 (confirmed): once the subscription to the tasks queue has
succeeded, (1) `Worker.Run` never returns a non-nil error, for any
environment, fuel and channel behaviour; (2) while the cancellation signal
has not fired, `Run` does not return at all — in particular closure of the
delivery channel never by itself terminates the loop; and (3) on a channel
the broker has closed and drained, the loop keeps receiving the zero-value
delivery and processes and acknowledges each one, still running after any
number of iterations. -/
theorem worker_run_cancellation_only :
    (∀ env fuel ch e, workerRun (.ok ch) env fuel ≠ .ret (some e)) ∧
    (∀ env, (∀ j, env.cancelled j = false) →
      ∀ fuel ch, ∃ st2, workerRun (.ok ch) env fuel = .running st2) ∧
    (∀ env, (∀ j, env.cancelled j = false) → (∀ j, env.ackFail j = false) →
      ∀ fuel, workerRun (.ok (.closed [])) env fuel =
        .running ⟨.closed [], List.replicate fuel "", 0⟩) :=
  ⟨fun env fuel ch e => workerLoop_ne_ret_some env fuel 0 ⟨ch, [], 0⟩ e,
   fun env hc fuel ch => workerLoop_running_of_not_cancelled env hc fuel 0 ⟨ch, [], 0⟩,
   fun env hc ha fuel => workerLoop_closed_drained env hc ha fuel 0 [] 0⟩

/-- Witness for C10: in the never-cancelled, never-failing environment, two
iterations on a closed drained channel leave the loop running with two
zero-value deliveries acknowledged. -/
theorem worker_run_cancellation_only_witness :
    workerRun (.ok (.closed [])) wEnvNone 2 = .running ⟨.closed [], ["", ""], 0⟩ :=
  worker_run_cancellation_only.2.2 wEnvNone (fun _ => rfl) (fun _ => rfl) 2

end Carch
